import Mathlib

/-!
# Verification of the AI Agent Platform message-send core

A shallow embedding of the repository's LLM client (`app/services/llm.py`),
message orchestration service (`app/services/message.py`) and the repository
layer (`app/repositories/*.py`), together with theorems settling the frozen
claims about them.

Conventions of the embedding:
* Python strings/ints become `String`/`Nat`; `None`-able values become `Option`.
* JSON bodies are modelled by record types carrying exactly the fields the
  code reads, with `Option` distinguishing an absent key from a present one
  (`dict.get` with a default becomes `Option.getD`).
* Python exceptions become `Except` error values; the exception classes
  `LLMTimeoutError` / `LLMAPIError` / any-other-`Exception` become the
  constructors of `PyErr` (the `details` payload dict attached to
  `LLMAPIError`, never read by any control flow, is omitted).
* The network is an oracle: each HTTP attempt consumes the next entry of a
  `List NetEvent` describing what the transport did on that attempt.
* Database rows live in Lean lists in insertion order; `created_at`
  timestamps and primary keys are drawn from a monotone session clock
  (SQLAlchemy assigns ids at flush, `server_default=func.now()` assigns the
  timestamp at flush).
-/

/-- Token-usage dictionary produced by `parse_llm_response`
(`{"prompt_tokens": _, "completion_tokens": _, "total_tokens": _}`). -/
structure TokenUsageDict where
  prompt_tokens : Nat
  completion_tokens : Nat
  total_tokens : Nat
deriving DecidableEq, Repr

/-- A Python value that can reach the `content` argument of
`MessageRepository.create`.  `send_message` passes either the user's string
or — as the code stands — the whole `(content, token_usage)` tuple returned
by `LLMService.chat`, so the dynamic type must allow both. -/
inductive PyVal where
  | str (s : String)
  | strUsagePair (s : String) (u : TokenUsageDict)
deriving DecidableEq, Repr

/-- Successful result of `LLMService.chat` / `parse_llm_response`:
the Python tuple `(assistant_message_content, token_usage)`. -/
structure ChatOk where
  content : String
  usage : TokenUsageDict
deriving DecidableEq, Repr

/-- The exception classes raised inside the LLM client:
`LLMTimeoutError`, `LLMAPIError` (with its `status_code`), and any other
Python exception (caught by the bare `except Exception` in `chat`). -/
inductive PyErr where
  | llmTimeout (msg : String)
  | llmApi (msg : String) (status_code : Option Nat)
  | other (msg : String)
deriving DecidableEq, Repr

/-- `usage` object of a provider response; each field may be absent. -/
structure RawUsage where
  prompt_tokens : Option Nat
  completion_tokens : Option Nat
  total_tokens : Option Nat
deriving DecidableEq, Repr

/-- `choices[i].message` object; `content` is `none` when the key is absent
or explicitly `null` (Python's `dict.get` returns `None` for both). -/
structure RawMessage where
  content : Option String
deriving DecidableEq, Repr

/-- One element of the `choices` array; `message` may be absent. -/
structure RawChoice where
  message : Option RawMessage
deriving DecidableEq, Repr

/-- A JSON body as far as the client reads it: the `error.message` string
(when both keys are present with a string value), the `choices` array and
the `usage` object. -/
structure RawBody where
  errorMessage : Option String
  choices : Option (List RawChoice)
  usage : Option RawUsage
deriving DecidableEq, Repr

/-- An HTTP response: status code, raw body text, and the parsed JSON body
(`none` when `response.json()` would raise). -/
structure HttpResponse where
  status_code : Nat
  text : String
  json : Option RawBody
deriving DecidableEq, Repr

/-- What the transport does on one attempt: raise `httpx.TimeoutException`,
raise another `httpx.RequestError`, or deliver a response. -/
inductive NetEvent where
  | timeout (msg : String)
  | requestError (msg : String)
  | response (resp : HttpResponse)
deriving DecidableEq, Repr

/-- A message dict with `role` and `content` keys, as built by
`_build_message_context` and consumed by `format_messages_for_llm`. -/
structure ChatMsg where
  role : String
  content : PyVal
deriving DecidableEq, Repr

/-- `format_messages_for_llm(messages, system_prompt)`: start from `[]`,
append a system entry when `system_prompt` is truthy (non-empty), then
append each history entry rebuilt from its `role`/`content` keys. -/
def format_messages_for_llm (messages : List ChatMsg) (system_prompt : String) :
    List ChatMsg :=
  (if system_prompt ≠ "" then [⟨"system", .str system_prompt⟩] else [])
    ++ messages.map (fun msg => ⟨msg.role, msg.content⟩)

/-- `parse_llm_response(response_data)`.  The `except (KeyError, IndexError,
TypeError)` wrapper in the source cannot fire on schema-shaped inputs (every
access already uses `dict.get` with a default), so it does not appear. -/
def parse_llm_response (response_data : RawBody) : Except PyErr ChatOk :=
  match response_data.choices.getD [] with
  | [] => .error (.llmApi "Invalid LLM response: no choices returned" none)
  | choice :: _ =>
    match (choice.message.getD ⟨none⟩).content with
    | none => .error (.llmApi "Invalid LLM response: no content in message" none)
    | some content =>
      .ok ⟨content,
        ⟨(response_data.usage.getD ⟨none, none, none⟩).prompt_tokens.getD 0,
         (response_data.usage.getD ⟨none, none, none⟩).completion_tokens.getD 0,
         (response_data.usage.getD ⟨none, none, none⟩).total_tokens.getD 0⟩⟩

/-- The error-detail extraction of `_make_request`: start from the raw body
text, and replace it with `error.message` from the JSON body when that is
extractable (any failure inside the `try` is swallowed by `except: pass`). -/
def extractErrorDetail (resp : HttpResponse) : String :=
  match resp.json with
  | some body => body.errorMessage.getD resp.text
  | none => resp.text

/-- `LLMService._make_request` applied to one transport outcome:
non-200 statuses raise `LLMAPIError` carrying the status code, a timeout
raises `LLMTimeoutError`, another transport error raises `LLMAPIError`
without a status, and on 200 the parsed JSON body is returned
(`response.json()` raising on a non-JSON 200 body is not an `LLMError`). -/
def make_request (timeout : Nat) (ev : NetEvent) : Except PyErr RawBody :=
  match ev with
  | .timeout _ =>
    .error (.llmTimeout
      ("LLM API request timed out after " ++ toString timeout ++ " seconds"))
  | .requestError msg =>
    .error (.llmApi ("LLM API request failed: " ++ msg) none)
  | .response resp =>
    if resp.status_code ≠ 200 then
      .error (.llmApi ("LLM API error: " ++ extractErrorDetail resp)
        (some resp.status_code))
    else
      match resp.json with
      | some body => .ok body
      | none => .error (.other "response body is not valid JSON")

/-- One iteration body of the retry loop: `_make_request` then
`parse_llm_response`, with any raised exception escaping as the error. -/
def attemptOnce (timeout : Nat) (ev : NetEvent) : Except PyErr ChatOk :=
  match make_request timeout ev with
  | .error e => .error e
  | .ok body => parse_llm_response body

/-- The guard `e.status_code and 500 <= e.status_code < 600` of the retry
loop (an absent status code is falsy, so it never retries). -/
def isServerError (status_code : Option Nat) : Prop :=
  match status_code with
  | some s => 500 ≤ s ∧ s < 600
  | none => False

instance (st : Option Nat) : Decidable (isServerError st) :=
  match st with
  | some s => inferInstanceAs (Decidable (500 ≤ s ∧ s < 600))
  | none => inferInstanceAs (Decidable False)

/-- The `for attempt in range(self.max_retries + 1)` loop of
`LLMService.chat`, consuming one network event per attempt.  Returns the
final outcome together with the number of attempts actually made.
Timeouts re-raise at once; `LLMAPIError` retries only under
`isServerError` and only while `attempt < max_retries`; any other
exception retries while attempts remain and is wrapped as
`LLMAPIError` on the last attempt. -/
def chatLoop (timeout max_retries : Nat) :
    Nat → List NetEvent → Except PyErr ChatOk × Nat
  | attempt, [] => (.error (.other "no further network events"), attempt)
  | attempt, ev :: rest =>
    match attemptOnce timeout ev with
    | .ok result => (.ok result, attempt + 1)
    | .error (.llmTimeout msg) => (.error (.llmTimeout msg), attempt + 1)
    | .error (.llmApi msg status_code) =>
      if isServerError status_code ∧ attempt < max_retries then
        chatLoop timeout max_retries (attempt + 1) rest
      else
        (.error (.llmApi msg status_code), attempt + 1)
    | .error (.other msg) =>
      if attempt < max_retries then
        chatLoop timeout max_retries (attempt + 1) rest
      else
        (.error (.llmApi ("Unexpected error: " ++ msg) none), attempt + 1)

/-- The client's configuration (`LLMService.__init__` fields). -/
structure LLMService where
  api_base_url : String
  api_key : Option String
  model : String
  timeout : Nat
  max_retries : Nat
deriving DecidableEq, Repr

/-- `LLMService.chat`: format the history with the system prompt, then run
the bounded retry loop from attempt 0.  The formatted messages only shape
the request body, which the network oracle abstracts over. -/
def LLMService.chat (svc : LLMService) (messages : List ChatMsg)
    (system_prompt : String) (events : List NetEvent) :
    Except PyErr ChatOk × Nat :=
  let _formatted := format_messages_for_llm messages system_prompt
  chatLoop svc.timeout svc.max_retries 0 events

/-! ## Storage layer: rows and the session -/

/-- A row of the `agents` table (`app/models/agent.py`); `updated_at` has
`onupdate=func.now()`. -/
structure Agent where
  id : Nat
  name : String
  system_prompt : String
  description : Option String
  created_at : Nat
  updated_at : Nat
deriving DecidableEq, Repr

/-- A row of the `conversations` table (`app/models/conversation.py`). -/
structure Conversation where
  id : Nat
  agent_id : Nat
  title : Option String
  created_at : Nat
  updated_at : Nat
deriving DecidableEq, Repr

/-- A row of the `messages` table (`app/models/message.py`).  The `content`
column is declared `Text`, but the value actually handed to the column is
whatever Python value the caller passed, hence `PyVal`. -/
structure Message where
  id : Nat
  conversation_id : Nat
  role : String
  content : PyVal
  created_at : Nat
deriving DecidableEq, Repr

/-- A row of the `token_usage` table (`app/models/token_usage.py`). -/
structure TokenUsage where
  id : Nat
  conversation_id : Nat
  model : String
  prompt_tokens : Nat
  completion_tokens : Nat
  total_tokens : Nat
  created_at : Nat
deriving DecidableEq, Repr

/-- The table contents, each list in physical insertion order. -/
structure DB where
  agents : List Agent
  conversations : List Conversation
  messages : List Message
  token_usages : List TokenUsage
deriving DecidableEq, Repr

/-- A SQLAlchemy `AsyncSession` over one request: `db` is the state the
open transaction sees (flushed writes included), `committed` is the durable
state — what survives if the request ends without `commit()` (the session
teardown rolls the open transaction back).  `clock` feeds flush-assigned
primary keys and `func.now()` timestamps and increases per insert. -/
structure Session where
  db : DB
  committed : DB
  clock : Nat
deriving DecidableEq, Repr

/-- `session.commit()`: the transaction's writes become durable. -/
def Session.commit (sess : Session) : Session :=
  { sess with committed := sess.db }

/-- `ConversationRepository.get_by_id` (`scalar_one_or_none` on the primary
key; ids are unique, so the first match is the row). -/
def ConversationRepository.get_by_id (db : DB) (conversation_id : Nat) :
    Option Conversation :=
  db.conversations.find? (fun c => c.id == conversation_id)

/-- `AgentRepository.get_by_id`. -/
def AgentRepository.get_by_id (db : DB) (agent_id : Nat) : Option Agent :=
  db.agents.find? (fun a => a.id == agent_id)

/-- `MessageRepository.create`: add the row and flush — the insert becomes
visible to this session/transaction (id and `created_at` assigned now) but
is *not* committed. -/
def MessageRepository.create (sess : Session) (conversation_id : Nat)
    (role : String) (content : PyVal) : Message × Session :=
  let message : Message :=
    ⟨sess.clock, conversation_id, role, content, sess.clock⟩
  (message,
   { sess with
     db := { sess.db with messages := sess.db.messages ++ [message] }
     clock := sess.clock + 1 })

/-- Stable insertion by `created_at`: a row is placed before the first row
with a strictly later (or equal-and-later-inserted) timestamp.  Models the
`ORDER BY created_at ASC` of `get_by_conversation`, which on this storage
returns equal timestamps in insertion order. -/
def insertByTime (m : Message) : List Message → List Message
  | [] => [m]
  | x :: xs =>
    if m.created_at ≤ x.created_at then m :: x :: xs
    else x :: insertByTime m xs

/-- Sort a message list by `created_at`, stably. -/
def sortByCreatedAt : List Message → List Message
  | [] => []
  | m :: rest => insertByTime m (sortByCreatedAt rest)

/-- `MessageRepository.get_by_conversation`: select the conversation's rows
ordered by `created_at` ascending. -/
def MessageRepository.get_by_conversation (db : DB) (conversation_id : Nat) :
    List Message :=
  sortByCreatedAt (db.messages.filter (fun m => m.conversation_id == conversation_id))

/-- `TokenUsageRepository.get_total_tokens_by_conversation`:
`SUM(total_tokens)` over the conversation's rows, `NULL` coalesced to 0. -/
def TokenUsageRepository.get_total_tokens_by_conversation (db : DB)
    (conversation_id : Nat) : Nat :=
  ((db.token_usages.filter (fun u => u.conversation_id == conversation_id)).map
    (fun u => u.total_tokens)).sum

/-! ## Message orchestration service (`app/services/message.py`) -/

/-- The errors `send_message`/`get_messages` can raise:
`ConversationNotFoundError`, or an LLM-client exception propagating
unchanged. -/
inductive SendErr where
  | conversationNotFound (conversation_id : Nat)
  | llm (e : PyErr)
deriving DecidableEq, Repr

/-- `MessageService._build_message_context`: map rows to
`{"role": msg.role, "content": msg.content}` dicts. -/
def build_message_context (messages : List Message) : List ChatMsg :=
  messages.map (fun msg => ⟨msg.role, msg.content⟩)

/-- `MessageService.send_message`.  Mirrors the source line by line:
resolve the conversation (else raise), resolve the agent for its system
prompt (default prompt when absent), create-and-flush the user message,
build the context from the ordered history, call `chat`, create the
assistant message passing `ai_response` — the whole `(content, usage)`
tuple — as the `content` argument, and only then `commit()`.  No
`TokenUsage` row is ever written.  Returns the exit session alongside the
result; on an error the open transaction is left uncommitted. -/
def MessageService.send_message (svc : LLMService) (sess : Session)
    (conversation_id : Nat) (content : String) (events : List NetEvent) :
    Except SendErr (Message × Message) × Session :=
  match ConversationRepository.get_by_id sess.db conversation_id with
  | none => (.error (.conversationNotFound conversation_id), sess)
  | some conversation =>
    let agent := AgentRepository.get_by_id sess.db conversation.agent_id
    let system_prompt :=
      match agent with
      | some a => a.system_prompt
      | none => "You are a helpful assistant."
    let created := MessageRepository.create sess conversation_id "user" (.str content)
    let user_message := created.1
    let sess1 := created.2
    let messages := MessageRepository.get_by_conversation sess1.db conversation_id
    let message_context := build_message_context messages
    match LLMService.chat svc message_context system_prompt events with
    | (.error e, _) => (.error (.llm e), sess1)
    | (.ok ai_response, _) =>
      let created2 := MessageRepository.create sess1 conversation_id "assistant"
        (.strUsagePair ai_response.content ai_response.usage)
      let assistant_message := created2.1
      let sess2 := created2.2.commit
      (.ok (user_message, assistant_message), sess2)

/-- `MessageService.get_messages`: verify the conversation exists, then
return its messages in chronological order. -/
def MessageService.get_messages (sess : Session) (conversation_id : Nat) :
    Except SendErr (List Message) :=
  match ConversationRepository.get_by_id sess.db conversation_id with
  | none => .error (.conversationNotFound conversation_id)
  | some _ => .ok (MessageRepository.get_by_conversation sess.db conversation_id)

/-! ## Agent updates (`app/repositories/agent.py`, `app/schemas/agent.py`) -/

/-- `AgentUpdate` with Pydantic's set-tracking: the outer `Option` is
whether the field was supplied at all (`model_dump(exclude_unset=True)`
keeps only supplied fields), the inner one whether it was `null`. -/
structure AgentUpdate where
  name : Option (Option String)
  system_prompt : Option (Option String)
  description : Option (Option String)
deriving DecidableEq, Repr

/-- The update loop `for field, value in update_data.items(): if value is
not None: setattr(agent, field, value)`, unrolled over the three fields:
a field is written exactly when it was supplied with a non-`None` value. -/
def applyFields (agent : Agent) (data : AgentUpdate) : Agent :=
  let agent :=
    match data.name with
    | some (some v) => { agent with name := v }
    | _ => agent
  let agent :=
    match data.system_prompt with
    | some (some v) => { agent with system_prompt := v }
    | _ => agent
  match data.description with
  | some (some v) => { agent with description := some v }
  | _ => agent

/-- Replace the first row with the given id (the ORM mutates the one mapped
object returned by `get_by_id`). -/
def replaceAgent (agent_id : Nat) (a : Agent) : List Agent → List Agent
  | [] => []
  | x :: xs =>
    if x.id == agent_id then a :: xs else x :: replaceAgent agent_id a xs

/-- `AgentRepository.update`: fetch, apply the supplied non-`None` fields,
flush.  The flush issues an `UPDATE` only when some column has a net
change, and only then does `onupdate=func.now()` bump `updated_at` (to
`now`, the flush time). -/
def AgentRepository.update (db : DB) (now : Nat) (agent_id : Nat)
    (data : AgentUpdate) : Option Agent × DB :=
  match AgentRepository.get_by_id db agent_id with
  | none => (none, db)
  | some agent =>
    let applied := applyFields agent data
    let updated := if applied ≠ agent then { applied with updated_at := now } else agent
    (some updated, { db with agents := replaceAgent agent_id updated db.agents })

/-! ## Sortedness of message timestamps -/

/-- Every message in the list was created at or after time `t`. -/
def timeLowerBound (t : Nat) : List Message → Bool
  | [] => true
  | m :: rest => decide (t ≤ m.created_at) && timeLowerBound t rest

/-- The timestamps are non-decreasing along the list (each row bounds all
later rows).  Holds for every table built by flush-time timestamps from the
monotone session clock. -/
def timesSorted : List Message → Bool
  | [] => true
  | m :: rest => timeLowerBound m.created_at rest && timesSorted rest

/-! ## Concrete fixtures used by the evaluation theorems -/

/-- An agent row, id 1. -/
def stubAgent : Agent :=
  ⟨1, "Test Agent", "You are helpful.", none, 0, 0⟩

/-- A conversation of that agent, id 1. -/
def stubConversation : Conversation :=
  ⟨1, 1, some "Chat", 0, 0⟩

/-- A database holding that agent and conversation and nothing else. -/
def initDB : DB :=
  ⟨[stubAgent], [stubConversation], [], []⟩

/-- A fresh committed session over `initDB`; the clock starts at 10. -/
def initSession : Session :=
  ⟨initDB, initDB, 10⟩

/-- The spec's stub success body: content "Hi there", usage (2, 3, 5). -/
def okBody : RawBody :=
  ⟨none, some [⟨some ⟨some "Hi there"⟩⟩], some ⟨some 2, some 3, some 5⟩⟩

/-- A 200 response delivering `okBody`. -/
def ok200 : HttpResponse :=
  ⟨200, "", some okBody⟩

/-- A 503 response with a plain-text body. -/
def r503 : HttpResponse :=
  ⟨503, "unavailable", none⟩

/-- A client configured with timeout 30 and `max_retries = 2`. -/
def svcTest : LLMService :=
  ⟨"https://api.example.com", some "key", "qwen-turbo", 30, 2⟩

/-! ## Theorems -/

/-- Rebuilding a `role`/`content` dict from its own two keys is the
identity. -/
theorem chatMsg_map_eta (l : List ChatMsg) :
    l.map (fun msg => (⟨msg.role, msg.content⟩ : ChatMsg)) = l := by
  induction l with
  | nil => rfl
  | cons x xs ih => simp [ih]

/-- C9: `format_messages_for_llm` prepends the single system entry to the
unchanged history exactly when the prompt is non-empty, and returns just
the history when the prompt is empty; in particular
`formatForProvider([], "P") = [{role:"system", content:"P"}]` and
`formatForProvider([], "") = []`. -/
theorem c9_format_for_provider (history : List ChatMsg) (system_prompt : String) :
    (system_prompt ≠ "" →
      format_messages_for_llm history system_prompt =
        ⟨"system", .str system_prompt⟩ :: history) ∧
    (system_prompt = "" →
      format_messages_for_llm history system_prompt = history) ∧
    format_messages_for_llm [] "P" = [⟨"system", .str "P"⟩] ∧
    format_messages_for_llm [] "" = [] := by
  refine ⟨?_, ?_, ?_, ?_⟩
  · intro h
    simp [format_messages_for_llm, h, chatMsg_map_eta]
  · intro h
    simp [format_messages_for_llm, h, chatMsg_map_eta]
  · simp [format_messages_for_llm]
  · simp [format_messages_for_llm]

/-- Witness for C9 at concrete inputs. -/
theorem c9_format_for_provider_witness :
    format_messages_for_llm [] "P" = [⟨"system", .str "P"⟩] ∧
    format_messages_for_llm [⟨"user", .str "hi"⟩] "" = [⟨"user", .str "hi"⟩] :=
  ⟨(c9_format_for_provider [] "P").1 (by decide),
   (c9_format_for_provider [⟨"user", .str "hi"⟩] "").2.1 rfl⟩

/-- C8: `parse_llm_response` succeeds exactly when `choices` is non-empty
and the first choice's `message.content` is present and non-null, in which
case it returns that content paired with the usage counts each defaulted to
0 when missing; otherwise it fails with an `LLMAPIError`. -/
theorem c8_parse_response (response_data : RawBody) :
    ((∃ result, parse_llm_response response_data = .ok result) ↔
      (∃ choice rest, response_data.choices.getD [] = choice :: rest ∧
        (choice.message.getD ⟨none⟩).content ≠ none)) ∧
    (response_data.choices.getD [] = [] →
      parse_llm_response response_data =
        .error (.llmApi "Invalid LLM response: no choices returned" none)) ∧
    (∀ choice rest, response_data.choices.getD [] = choice :: rest →
      ((choice.message.getD ⟨none⟩).content = none →
        parse_llm_response response_data =
          .error (.llmApi "Invalid LLM response: no content in message" none)) ∧
      (∀ s, (choice.message.getD ⟨none⟩).content = some s →
        parse_llm_response response_data = .ok
          ⟨s, ⟨(response_data.usage.getD ⟨none, none, none⟩).prompt_tokens.getD 0,
               (response_data.usage.getD ⟨none, none, none⟩).completion_tokens.getD 0,
               (response_data.usage.getD ⟨none, none, none⟩).total_tokens.getD 0⟩⟩)) := by
  have hempty : response_data.choices.getD [] = [] →
      parse_llm_response response_data =
        .error (.llmApi "Invalid LLM response: no choices returned" none) := by
    intro h
    unfold parse_llm_response
    rw [h]
  have hnocontent : ∀ choice rest, response_data.choices.getD [] = choice :: rest →
      (choice.message.getD ⟨none⟩).content = none →
      parse_llm_response response_data =
        .error (.llmApi "Invalid LLM response: no content in message" none) := by
    intro choice rest h hc
    unfold parse_llm_response
    rw [h]
    simp [hc]
  have hok : ∀ choice rest s, response_data.choices.getD [] = choice :: rest →
      (choice.message.getD ⟨none⟩).content = some s →
      parse_llm_response response_data = .ok
        ⟨s, ⟨(response_data.usage.getD ⟨none, none, none⟩).prompt_tokens.getD 0,
             (response_data.usage.getD ⟨none, none, none⟩).completion_tokens.getD 0,
             (response_data.usage.getD ⟨none, none, none⟩).total_tokens.getD 0⟩⟩ := by
    intro choice rest s h hs
    unfold parse_llm_response
    rw [h]
    simp [hs]
  refine ⟨?_, hempty, ?_⟩
  · constructor
    · rintro ⟨result, hres⟩
      cases h : response_data.choices.getD [] with
      | nil =>
        rw [hempty h] at hres
        simp at hres
      | cons choice rest =>
        refine ⟨choice, rest, rfl, ?_⟩
        intro hc
        rw [hnocontent choice rest h hc] at hres
        simp at hres
    · rintro ⟨choice, rest, h, hcne⟩
      cases hs : (choice.message.getD ⟨none⟩).content with
      | none => exact absurd hs hcne
      | some s => exact ⟨_, hok choice rest s h hs⟩
  · intro choice rest h
    exact ⟨fun hc => hnocontent choice rest h hc,
           fun s hs => hok choice rest s h hs⟩

/-- Witness for C8: the spec's success vector and the empty-`choices`
failure vector. -/
theorem c8_parse_response_witness :
    parse_llm_response
        ⟨none, some [⟨some ⟨some "hi"⟩⟩], some ⟨some 3, some 2, some 5⟩⟩ =
      .ok ⟨"hi", ⟨3, 2, 5⟩⟩ ∧
    parse_llm_response ⟨none, some [], none⟩ =
      .error (.llmApi "Invalid LLM response: no choices returned" none) :=
  ⟨((c8_parse_response
      ⟨none, some [⟨some ⟨some "hi"⟩⟩], some ⟨some 3, some 2, some 5⟩⟩).2.2
      ⟨some ⟨some "hi"⟩⟩ [] rfl).2 "hi" rfl,
   (c8_parse_response ⟨none, some [], none⟩).2.1 rfl⟩

/-- C6 counterexample: a 201 response — a 2xx status — carrying a valid
JSON body is rejected with an API error carrying status 201, although the
claim as stated requires every 2xx response to yield the parsed body. -/
theorem c6_status_201_counterexample :
    make_request 30 (.response ⟨201, "created", some okBody⟩) =
      .error (.llmApi "LLM API error: created" (some 201)) ∧
    200 ≤ 201 ∧ 201 < 300 :=
  ⟨rfl, by decide, by decide⟩

/-- C6 amended: for a response whose body parses as JSON, the low-level
call fails with an API error carrying the status code exactly when the
status differs from 200 (even other 2xx statuses), using the provider
`error.message` from the JSON body when present, else the raw body text;
it returns the parsed JSON body exactly for status 200. -/
theorem c6_make_request_amended (timeout : Nat) (resp : HttpResponse)
    (body : RawBody) (hjson : resp.json = some body) :
    (resp.status_code ≠ 200 →
      make_request timeout (.response resp) =
        .error (.llmApi ("LLM API error: " ++ body.errorMessage.getD resp.text)
          (some resp.status_code))) ∧
    (resp.status_code = 200 →
      make_request timeout (.response resp) = .ok body) := by
  constructor
  · intro h
    simp [make_request, extractErrorDetail, h, hjson]
  · intro h
    simp [make_request, h, hjson]

/-- Witness for C6's amended theorem: a 400 failure with a provider error
message, and a 200 success. -/
theorem c6_make_request_amended_witness :
    make_request 30 (.response ⟨400, "bad request", some ⟨some "boom", none, none⟩⟩) =
      .error (.llmApi "LLM API error: boom" (some 400)) ∧
    make_request 30 (.response ok200) = .ok okBody :=
  ⟨(c6_make_request_amended 30 ⟨400, "bad request", some ⟨some "boom", none, none⟩⟩
      ⟨some "boom", none, none⟩ rfl).1 (by decide),
   (c6_make_request_amended 30 ok200 okBody rfl).2 rfl⟩

/-- C5: a network timeout propagates at once as an `LLMTimeoutError` — a
kind distinct from `LLMAPIError` — with exactly one attempt made, however
many further attempts the retry budget would still allow. -/
theorem c5_timeout_no_retry (svc : LLMService) (messages : List ChatMsg)
    (system_prompt msg : String) (rest : List NetEvent) :
    LLMService.chat svc messages system_prompt (.timeout msg :: rest) =
      (.error (.llmTimeout
        ("LLM API request timed out after " ++ toString svc.timeout ++ " seconds")), 1) ∧
    (∀ attempt (rest2 : List NetEvent),
      chatLoop svc.timeout svc.max_retries attempt (.timeout msg :: rest2) =
        (.error (.llmTimeout
          ("LLM API request timed out after " ++ toString svc.timeout ++ " seconds")),
         attempt + 1)) ∧
    (∀ tmsg amsg st, PyErr.llmTimeout tmsg ≠ PyErr.llmApi amsg st) := by
  refine ⟨?_, ?_, ?_⟩
  · unfold LLMService.chat chatLoop attemptOnce make_request
    simp
  · intro attempt rest2
    unfold chatLoop attemptOnce make_request
    simp
  · intro tmsg amsg st h
    cases h

/-- Attempt-count bound for the retry loop: started at index
`attempt ≤ max_retries`, it makes at most `max_retries + 1` attempts. -/
theorem chatLoop_attempts_le (timeout max_retries : Nat) :
    ∀ (events : List NetEvent) (attempt : Nat), attempt ≤ max_retries →
      (chatLoop timeout max_retries attempt events).2 ≤ max_retries + 1 := by
  intro events
  induction events with
  | nil =>
    intro attempt h
    unfold chatLoop
    omega
  | cons ev rest ih =>
    intro attempt h
    unfold chatLoop
    cases hao : attemptOnce timeout ev with
    | ok r => simp [hao]; omega
    | error e =>
      cases e with
      | llmTimeout m => simp [hao]; omega
      | llmApi m st =>
        simp only [hao]
        split
        · rename_i hcond
          exact ih (attempt + 1) hcond.2
        · simp
          omega
      | other m =>
        simp only [hao]
        split
        · rename_i hcond
          exact ih (attempt + 1) hcond
        · simp
          omega

/-- When every attempt fails with a 5xx API error and exactly enough events
remain to exhaust the budget, the loop ends with the final 5xx API error
after `max_retries + 1` attempts in total. -/
theorem chatLoop_all_server_errors (timeout max_retries : Nat) :
    ∀ (events : List NetEvent) (attempt : Nat), attempt ≤ max_retries →
      attempt + events.length = max_retries + 1 →
      (∀ ev ∈ events, ∃ msg s,
        attemptOnce timeout ev = .error (.llmApi msg (some s)) ∧ 500 ≤ s ∧ s < 600) →
      ∃ msg s, 500 ≤ s ∧ s < 600 ∧
        chatLoop timeout max_retries attempt events =
          (.error (.llmApi msg (some s)), max_retries + 1) := by
  intro events
  induction events with
  | nil =>
    intro attempt hle hlen _
    exfalso
    simp at hlen
    omega
  | cons ev rest ih =>
    intro attempt hle hlen hall
    obtain ⟨msg, s, hev, hs1, hs2⟩ := hall ev (by simp)
    by_cases hlt : attempt < max_retries
    · have hres := ih (attempt + 1) hlt (by simp at hlen ⊢; omega)
        (fun e he => hall e (by simp [he]))
      obtain ⟨msg', s', hs1', hs2', heq⟩ := hres
      refine ⟨msg', s', hs1', hs2', ?_⟩
      unfold chatLoop
      simp only [hev]
      rw [if_pos ⟨⟨hs1, hs2⟩, hlt⟩]
      exact heq
    · have hatt : attempt = max_retries := by omega
      refine ⟨msg, s, hs1, hs2, ?_⟩
      unfold chatLoop
      simp only [hev]
      rw [if_neg (fun hcond => hlt hcond.2)]
      rw [hatt]

/-- C4: in `chat`'s retry loop, (i) at most `max_retries + 1` attempts are
ever made; (ii) an API error whose status code is not in 500–599 — a 4xx
status or an absent one — is returned on the very attempt that raised it;
(iii) a 5xx API error with retry budget left moves the loop to the next
attempt; (iv) a 5xx API error on every attempt ends with a final API error
after exactly `max_retries + 1` attempts. -/
theorem c4_retry_policy (svc : LLMService) :
    (∀ messages system_prompt events,
      (LLMService.chat svc messages system_prompt events).2 ≤ svc.max_retries + 1) ∧
    (∀ attempt ev rest msg st, attempt ≤ svc.max_retries →
      attemptOnce svc.timeout ev = .error (.llmApi msg st) → ¬ isServerError st →
      chatLoop svc.timeout svc.max_retries attempt (ev :: rest) =
        (.error (.llmApi msg st), attempt + 1)) ∧
    (∀ attempt ev rest msg s, attempt < svc.max_retries →
      attemptOnce svc.timeout ev = .error (.llmApi msg (some s)) →
      500 ≤ s → s < 600 →
      chatLoop svc.timeout svc.max_retries attempt (ev :: rest) =
        chatLoop svc.timeout svc.max_retries (attempt + 1) rest) ∧
    (∀ messages system_prompt events, events.length = svc.max_retries + 1 →
      (∀ ev ∈ events, ∃ msg s,
        attemptOnce svc.timeout ev = .error (.llmApi msg (some s)) ∧ 500 ≤ s ∧ s < 600) →
      ∃ msg s, 500 ≤ s ∧ s < 600 ∧
        LLMService.chat svc messages system_prompt events =
          (.error (.llmApi msg (some s)), svc.max_retries + 1)) := by
  refine ⟨?_, ?_, ?_, ?_⟩
  · intro messages system_prompt events
    unfold LLMService.chat
    exact chatLoop_attempts_le svc.timeout svc.max_retries events 0 (Nat.zero_le _)
  · intro attempt ev rest msg st _ hev hns
    unfold chatLoop
    simp only [hev]
    rw [if_neg (fun hcond => hns hcond.1)]
  · intro attempt ev rest msg s hlt hev hs1 hs2
    conv_lhs => unfold chatLoop
    simp only [hev]
    rw [if_pos ⟨⟨hs1, hs2⟩, hlt⟩]
  · intro messages system_prompt events hlen hall
    unfold LLMService.chat
    exact chatLoop_all_server_errors svc.timeout svc.max_retries events 0
      (Nat.zero_le _) (by omega) hall

/-- Witness for C4 at concrete inputs: a 404 propagates with one attempt,
a 503 with budget left moves to the next attempt (and the 503-then-200 run
succeeds on attempt 2), and three straight 503s exhaust `max_retries = 2`
with a final API error after 3 attempts. -/
theorem c4_retry_policy_witness :
    chatLoop 30 2 0 [.response ⟨404, "bad request", none⟩] =
      (.error (.llmApi "LLM API error: bad request" (some 404)), 1) ∧
    chatLoop 30 2 0 [.response r503, .response ok200] =
      chatLoop 30 2 1 [.response ok200] ∧
    chatLoop 30 2 0 [.response r503, .response ok200] = (.ok ⟨"Hi there", ⟨2, 3, 5⟩⟩, 2) ∧
    (∃ msg s, 500 ≤ s ∧ s < 600 ∧
      LLMService.chat svcTest [] "" [.response r503, .response r503, .response r503] =
        (.error (.llmApi msg (some s)), 3)) := by
  refine ⟨?_, ?_, ?_, ?_⟩
  · exact (c4_retry_policy svcTest).2.1 0 (.response ⟨404, "bad request", none⟩) []
      "LLM API error: bad request" (some 404) (by decide) rfl (by decide)
  · exact (c4_retry_policy svcTest).2.2.1 0 (.response r503) [.response ok200]
      "LLM API error: unavailable" 503 (by decide) rfl (by decide) (by decide)
  · rfl
  · exact (c4_retry_policy svcTest).2.2.2 [] ""
      [.response r503, .response r503, .response r503] rfl
      (by
        intro ev hev
        simp at hev
        subst hev
        exact ⟨"LLM API error: unavailable", 503, rfl, by decide, by decide⟩)

/-- C1 (code bug): on a successful LLM call, `send_message` passes
`ai_response` — the whole `(content, token_usage)` tuple returned by
`chat` — as the `content` of the assistant message instead of the content
string alone extracted by `parse_llm_response`, contradicting the
repository's `content: str` annotation, the `Text` column, and the
`MessageResponse` schema.  Evaluated at the spec's end-to-end stub
(send "Hello", LLM returns "Hi there" with usage (2, 3, 5)). -/
theorem c1_assistant_content_is_pair :
    (MessageService.send_message svcTest initSession 1 "Hello" [.response ok200]).1 =
      .ok (⟨10, 1, "user", .str "Hello", 10⟩,
           ⟨11, 1, "assistant", .strUsagePair "Hi there" ⟨2, 3, 5⟩, 11⟩) ∧
    PyVal.strUsagePair "Hi there" ⟨2, 3, 5⟩ ≠ PyVal.str "Hi there" := by
  exact ⟨rfl, by decide⟩

/-- C2 (code bug): after the same successful send, no `TokenUsage` row was
appended at all — `send_message` never touches `TokenUsageRepository` (and
`MessageService` does not even define the `token_usage_repository`
attribute its router reads) — so the conversation's aggregated token total
stays 0 rather than increasing by the returned `total_tokens` of 5. -/
theorem c2_no_token_usage_recorded :
    (∃ um am, (MessageService.send_message svcTest initSession 1 "Hello"
      [.response ok200]).1 = .ok (um, am)) ∧
    (MessageService.send_message svcTest initSession 1 "Hello"
      [.response ok200]).2.db.token_usages = [] ∧
    (MessageService.send_message svcTest initSession 1 "Hello"
      [.response ok200]).2.committed.token_usages = [] ∧
    TokenUsageRepository.get_total_tokens_by_conversation
      (MessageService.send_message svcTest initSession 1 "Hello"
        [.response ok200]).2.committed 1 = 0 := by
  exact ⟨⟨_, _, rfl⟩, rfl, rfl, rfl⟩

/-- C3 (code bug): when the LLM call fails, the user message exists only in
the never-committed transaction (`create` flushes, and the sole `commit()`
sits after the assistant write), so the durable state gains *zero* new
Message rows — the user's message is rolled back with the failed request
instead of being durably committed independent of the LLM outcome. -/
theorem c3_user_message_not_durable :
    (MessageService.send_message svcTest initSession 1 "Hello"
      [.timeout "deadline"]).1 =
      .error (.llm (.llmTimeout "LLM API request timed out after 30 seconds")) ∧
    (MessageService.send_message svcTest initSession 1 "Hello"
      [.timeout "deadline"]).2.db.messages = [⟨10, 1, "user", .str "Hello", 10⟩] ∧
    (MessageService.send_message svcTest initSession 1 "Hello"
      [.timeout "deadline"]).2.committed.messages = [] ∧
    (MessageService.send_message svcTest initSession 1 "Hello"
      [.timeout "deadline"]).2.committed = initSession.committed := by
  exact ⟨rfl, rfl, rfl, rfl⟩

/-- A message bounding a list from below is inserted at its head. -/
theorem insertByTime_of_lowerBound (m : Message) :
    ∀ l : List Message, timeLowerBound m.created_at l = true →
      insertByTime m l = m :: l := by
  intro l h
  cases l with
  | nil => rfl
  | cons x xs =>
    unfold insertByTime
    unfold timeLowerBound at h
    rw [if_pos (by simp at h; exact h.1)]

/-- Sorting a list whose timestamps are already non-decreasing is the
identity: the query's order coincides with the insertion order. -/
theorem sortByCreatedAt_of_sorted :
    ∀ l : List Message, timesSorted l = true → sortByCreatedAt l = l := by
  intro l
  induction l with
  | nil => intro _; rfl
  | cons m rest ih =>
    intro h
    unfold timesSorted at h
    simp at h
    unfold sortByCreatedAt
    rw [ih h.2]
    exact insertByTime_of_lowerBound m rest h.1

/-- A lower bound survives filtering. -/
theorem timeLowerBound_filter (t : Nat) (p : Message → Bool) :
    ∀ l : List Message, timeLowerBound t l = true →
      timeLowerBound t (l.filter p) = true := by
  intro l
  induction l with
  | nil => intro _; rfl
  | cons x xs ih =>
    intro h
    unfold timeLowerBound at h
    simp at h
    by_cases hp : p x
    · simp [List.filter_cons, hp, timeLowerBound, h.1, ih h.2]
    · simp [List.filter_cons, hp, ih h.2]

/-- Non-decreasing timestamps survive filtering: a conversation's rows keep
the whole table's chronological order. -/
theorem timesSorted_filter (p : Message → Bool) :
    ∀ l : List Message, timesSorted l = true →
      timesSorted (l.filter p) = true := by
  intro l
  induction l with
  | nil => intro _; rfl
  | cons x xs ih =>
    intro h
    unfold timesSorted at h
    simp at h
    by_cases hp : p x
    · simp [List.filter_cons, hp, timesSorted, ih h.2,
        timeLowerBound_filter x.created_at p xs h.1]
    · simp [List.filter_cons, hp, ih h.2]

/-- C7: `get_messages` fails with conversation-not-found exactly when the
conversation does not exist; otherwise it returns all of that
conversation's messages, and — the table's timestamps being non-decreasing
in insertion order, as the monotone flush clock guarantees — the returned
list is exactly the insertion-order sublist of the table, in non-decreasing
creation-time order. -/
theorem c7_get_messages_ordered (sess : Session) (conversation_id : Nat)
    (hmono : timesSorted sess.db.messages = true) :
    (ConversationRepository.get_by_id sess.db conversation_id = none →
      MessageService.get_messages sess conversation_id =
        .error (.conversationNotFound conversation_id)) ∧
    (∀ c, ConversationRepository.get_by_id sess.db conversation_id = some c →
      MessageService.get_messages sess conversation_id =
        .ok (sess.db.messages.filter
          (fun m => m.conversation_id == conversation_id)) ∧
      timesSorted (sess.db.messages.filter
        (fun m => m.conversation_id == conversation_id)) = true) := by
  constructor
  · intro h
    simp only [MessageService.get_messages, h]
  · intro c h
    have hsorted := timesSorted_filter
      (fun m => m.conversation_id == conversation_id) sess.db.messages hmono
    refine ⟨?_, hsorted⟩
    simp only [MessageService.get_messages, h,
      MessageRepository.get_by_conversation]
    rw [sortByCreatedAt_of_sorted _ hsorted]

/-- Witness for C7: a table holding rows of two conversations in
chronological insertion order; conversation 1's history comes back as its
insertion-order sublist. -/
theorem c7_get_messages_ordered_witness :
    MessageService.get_messages
      ⟨⟨[stubAgent], [stubConversation],
        [⟨10, 1, "user", .str "a", 10⟩, ⟨11, 2, "user", .str "x", 11⟩,
         ⟨12, 1, "assistant", .str "b", 12⟩], []⟩, initDB, 13⟩ 1 =
      .ok [⟨10, 1, "user", .str "a", 10⟩, ⟨12, 1, "assistant", .str "b", 12⟩] := by
  have h := (c7_get_messages_ordered
    ⟨⟨[stubAgent], [stubConversation],
      [⟨10, 1, "user", .str "a", 10⟩, ⟨11, 2, "user", .str "x", 11⟩,
       ⟨12, 1, "assistant", .str "b", 12⟩], []⟩, initDB, 13⟩ 1 (by decide)).2
    stubConversation rfl
  exact h.1.trans rfl

/-- `applyFields` written componentwise: each data field is applied exactly
when supplied with a non-null value, and `id`, `created_at`, `updated_at`
are untouched. -/
theorem applyFields_spec (agent : Agent) (data : AgentUpdate) :
    applyFields agent data =
      { agent with
        name := match data.name with
                | some (some v) => v
                | _ => agent.name
        system_prompt := match data.system_prompt with
                         | some (some v) => v
                         | _ => agent.system_prompt
        description := match data.description with
                       | some (some v) => some v
                       | _ => agent.description } := by
  obtain ⟨n, sp, d⟩ := data
  rcases n with _ | _ | v <;> rcases sp with _ | _ | w <;>
    rcases d with _ | _ | u <;> rfl

/-- Rows whose id differs from the updated one stay in the table. -/
theorem mem_replaceAgent_of_ne (agent_id : Nat) (a : Agent) :
    ∀ (l : List Agent) (x : Agent), x ∈ l → x.id ≠ agent_id →
      x ∈ replaceAgent agent_id a l := by
  intro l
  induction l with
  | nil =>
    intro x hx _
    cases hx
  | cons y ys ih =>
    intro x hx hne
    unfold replaceAgent
    split
    · rename_i hcond
      rcases List.mem_cons.mp hx with rfl | hmem
      · exact absurd (by simpa using hcond) hne
      · exact List.mem_cons_of_mem _ hmem
    · rcases List.mem_cons.mp hx with rfl | hmem
      · exact List.mem_cons_self _ _
      · exact List.mem_cons_of_mem _ (ih x hmem hne)

/-- C10 counterexample: updating only the name of agent 1 at time 5 also
rewrites `updated_at` from 0 to 5 (`onupdate=func.now()` fires on the
flush), so a field that was not supplied in the update is modified,
contrary to the claim as stated. -/
theorem c10_updated_at_counterexample :
    (AgentRepository.update initDB 5 1 ⟨some (some "New Name"), none, none⟩).1 =
      some ⟨1, "New Name", "You are helpful.", none, 0, 5⟩ ∧
    stubAgent.updated_at = 0 ∧ (5 : Nat) ≠ 0 :=
  ⟨rfl, rfl, by decide⟩

/-- C10 amended: an agent update modifies exactly the fields supplied with
non-null values — a field omitted, or supplied as null, keeps its previous
value (so a description can never be cleared back to null) — plus
`updated_at`, which is bumped to the update time whenever the applied
update actually changes the row (an update that changes nothing leaves the
row identical, `updated_at` included); `id` and `created_at` and every
agent row with a different id are unchanged, and updating a nonexistent id
returns no agent and leaves the database unchanged. -/
theorem c10_update_amended (db : DB) (now agent_id : Nat) (data : AgentUpdate) :
    (AgentRepository.get_by_id db agent_id = none →
      AgentRepository.update db now agent_id data = (none, db)) ∧
    (∀ x ∈ db.agents, x.id ≠ agent_id →
      x ∈ (AgentRepository.update db now agent_id data).2.agents) ∧
    (∀ agent, AgentRepository.get_by_id db agent_id = some agent →
      ∃ agent2,
        AgentRepository.update db now agent_id data =
          (some agent2, { db with agents := replaceAgent agent_id agent2 db.agents }) ∧
        agent2.id = agent.id ∧
        agent2.created_at = agent.created_at ∧
        agent2.name = (match data.name with
                       | some (some v) => v
                       | _ => agent.name) ∧
        agent2.system_prompt = (match data.system_prompt with
                                | some (some v) => v
                                | _ => agent.system_prompt) ∧
        agent2.description = (match data.description with
                              | some (some v) => some v
                              | _ => agent.description) ∧
        (applyFields agent data = agent → agent2 = agent) ∧
        (applyFields agent data ≠ agent → agent2.updated_at = now)) := by
  refine ⟨?_, ?_, ?_⟩
  · intro h
    simp only [AgentRepository.update, h]
  · intro x hx hne
    unfold AgentRepository.update
    cases h : AgentRepository.get_by_id db agent_id with
    | none => exact hx
    | some agent =>
      simp only []
      exact mem_replaceAgent_of_ne agent_id _ db.agents x hx hne
  · intro agent h
    by_cases hch : applyFields agent data = agent
    · refine ⟨agent, ?_, rfl, rfl, ?_, ?_, ?_, fun _ => rfl, fun hne => absurd hch hne⟩
      · simp only [AgentRepository.update, h]
        rw [if_neg (fun hne => hne hch)]
      · have hn := congrArg Agent.name hch
        rw [applyFields_spec] at hn
        exact hn.symm
      · have hsp := congrArg Agent.system_prompt hch
        rw [applyFields_spec] at hsp
        exact hsp.symm
      · have hd := congrArg Agent.description hch
        rw [applyFields_spec] at hd
        exact hd.symm
    · refine ⟨{ applyFields agent data with updated_at := now }, ?_, ?_, ?_, ?_, ?_, ?_,
        fun heq => absurd heq hch, fun _ => rfl⟩
      · simp only [AgentRepository.update, h]
        rw [if_pos hch]
      · rw [applyFields_spec]
      · rw [applyFields_spec]
      · rw [applyFields_spec]
      · rw [applyFields_spec]
      · rw [applyFields_spec]

/-- Witness for C10's amended theorem: supplying a new name together with
an explicitly-null description changes the name, keeps the description,
and bumps `updated_at` to the update time. -/
theorem c10_update_amended_witness :
    ∃ agent2,
      AgentRepository.update initDB 5 1 ⟨some (some "New Name"), none, some none⟩ =
        (some agent2, { initDB with agents := replaceAgent 1 agent2 initDB.agents }) ∧
      agent2.name = "New Name" ∧ agent2.description = none ∧ agent2.updated_at = 5 := by
  obtain ⟨agent2, heq, _, _, hn, _, hd, _, hbump⟩ :=
    (c10_update_amended initDB 5 1 ⟨some (some "New Name"), none, some none⟩).2.2
      stubAgent rfl
  exact ⟨agent2, heq, hn, hd, hbump (by decide)⟩
